import Mathlib

/-!
# Verification of the eggv annotation stage (`src/annotate.py`)

This file shallowly embeds the relational core of the eggv variant-annotation
stage: the left outer join of variant records to gene records
(`annotate_variants`), its rename / deduplicate / project steps, the two
partition filters (`isolate_intergenic_variants`, `isolate_annotated_variants`),
the per-chromosome statistics aggregation (`collect_annotation_stats`), the
transcript-column dtype behaviour of the two readers, and the per-chromosome
driver loop of `run_hg38_annotations`.

Tables are embedded as Lean lists of records, in file/row order.  Nullable
dataframe cells are embedded as `Option` values.  The embedding fixes the
relevant pandas/dask semantics explicitly:

* `merge(how='left')` keeps every left row in order; a left row with no
  matching right row is emitted once with all right columns null; key cells
  compare as values, with null keys matching null keys (pandas treats NaN
  keys as equal during a merge);
* `drop_duplicates(subset, keep='first')` keeps the first row of each key
  group, in original order, with null key components comparing equal;
* elementwise `col == 'x'` is false on a null cell and `col != 'x'` is true
  on a null cell;
* `groupby('chromosome')` drops rows whose group key is null and sorts the
  group keys; `.count()` of a column counts the non-null cells of that
  column in each group;
* `pd.concat(axis=1, sort=True)` aligns on the sorted union of the indices,
  filling missing entries, and the subsequent `.fillna(0).astype(np.int64)`
  turns every count into an integer with missing combinations at 0.
-/

namespace EggV

/-- A row of a processed variant table, as read by `read_processed_variants`
(columns `chromosome, rsid, start, end, observed, maf, effect, transcript`).
Cells are nullable.  `start`/`end` are genomic coordinates; `observed` and
`maf` are opaque payload never inspected by the annotation stage. -/
structure VariantRow where
  chromosome : Option String
  rsid : Option String
  start : Option Int
  end_ : Option Int
  observed : Option String
  maf : Option String
  effect : Option String
  transcript : Option String
deriving Repr, DecidableEq

/-- A row of a processed gene table, as read by `read_processed_genes`
(columns `chromosome, transcript_id, gene_id, gene_name, biotype`). -/
structure GeneRow where
  chromosome : Option String
  transcript_id : Option String
  gene_id : Option String
  gene_name : Option String
  biotype : Option String
deriving Repr, DecidableEq

/-- A row of the raw merge `vdf.merge(gdf, how='left', left_on='transcript',
right_on='transcript_id', suffixes=('_l', '_r'))`: all variant columns, then
all gene columns, the shared `chromosome` column disambiguated into
`chromosome_l` / `chromosome_r`. -/
structure JoinedRow where
  chromosome_l : Option String
  rsid : Option String
  start : Option Int
  end_ : Option Int
  observed : Option String
  maf : Option String
  effect : Option String
  transcript : Option String
  chromosome_r : Option String
  transcript_id : Option String
  gene_id : Option String
  gene_name : Option String
  biotype : Option String
deriving Repr, DecidableEq

/-- The joined row after `df.rename(columns={'effect': 'variant_effect',
'biotype': 'gene_biotype', 'chromosome_l': 'chromosome'})`. -/
structure RenamedRow where
  chromosome : Option String
  rsid : Option String
  start : Option Int
  end_ : Option Int
  observed : Option String
  maf : Option String
  variant_effect : Option String
  transcript : Option String
  chromosome_r : Option String
  transcript_id : Option String
  gene_id : Option String
  gene_name : Option String
  gene_biotype : Option String
deriving Repr, DecidableEq

/-- A row of the annotated table returned by `annotate_variants`: exactly the
seven projected columns `chromosome, rsid, variant_effect, transcript,
gene_id, gene_name, gene_biotype`. -/
structure AnnotatedRow where
  chromosome : Option String
  rsid : Option String
  variant_effect : Option String
  transcript : Option String
  gene_id : Option String
  gene_name : Option String
  gene_biotype : Option String
deriving Repr, DecidableEq

/-- A row of `isolate_intergenic_variants`' output: columns
`chromosome, rsid, variant_effect`. -/
structure IntergenicRow where
  chromosome : Option String
  rsid : Option String
  variant_effect : Option String
deriving Repr, DecidableEq

/-- A row of `isolate_annotated_variants`' output: columns
`chromosome, rsid, variant_effect, gene_id, gene_name, gene_biotype`. -/
structure MappedRow where
  chromosome : Option String
  rsid : Option String
  variant_effect : Option String
  gene_id : Option String
  gene_name : Option String
  gene_biotype : Option String
deriving Repr, DecidableEq

/-- A row of the statistics table built by `collect_annotation_stats`:
index column `chromosome` plus the three counts.  The counts are natural
numbers: the Python code ends with `.fillna(0).astype(np.int64)`, so the
stored values are integers. -/
structure StatsRow where
  chromosome : String
  intra_mapped : Nat
  intra_failed : Nat
  intergenic : Nat
deriving Repr, DecidableEq

/-! ## Generic keep-first deduplication

`DataFrame.drop_duplicates(subset=k, keep='first')`: scan the rows in order,
keep a row iff its key was not seen before. -/

/-- Keep-first deduplication relative to a key function, carrying the set of
already-seen keys. -/
def dedupFirstAux {α κ : Type} [DecidableEq κ] (key : α → κ) :
    List κ → List α → List α
  | _, [] => []
  | seen, x :: xs =>
    if key x ∈ seen then dedupFirstAux key seen xs
    else x :: dedupFirstAux key (key x :: seen) xs

/-- Keep-first deduplication relative to a key function
(`drop_duplicates(subset=..., keep='first')`). -/
def dedupFirst {α κ : Type} [DecidableEq κ] (key : α → κ) (l : List α) :
    List α :=
  dedupFirstAux key [] l

/-! ## The annotation join (`annotate_variants`) -/

/-- One merged row for a variant row matched with a gene row: variant columns
then gene columns, `chromosome` split into the `_l` / `_r` suffixed pair. -/
def mergeRow (v : VariantRow) (g : GeneRow) : JoinedRow :=
  { chromosome_l := v.chromosome
    rsid := v.rsid
    start := v.start
    end_ := v.end_
    observed := v.observed
    maf := v.maf
    effect := v.effect
    transcript := v.transcript
    chromosome_r := g.chromosome
    transcript_id := g.transcript_id
    gene_id := g.gene_id
    gene_name := g.gene_name
    biotype := g.biotype }

/-- One merged row for a variant row with no matching gene row: all right-side
columns are null, as a left outer join leaves them. -/
def mergeRowUnmatched (v : VariantRow) : JoinedRow :=
  { chromosome_l := v.chromosome
    rsid := v.rsid
    start := v.start
    end_ := v.end_
    observed := v.observed
    maf := v.maf
    effect := v.effect
    transcript := v.transcript
    chromosome_r := none
    transcript_id := none
    gene_id := none
    gene_name := none
    biotype := none }

/-- `vdf.merge(gdf, how='left', left_on='transcript', right_on='transcript_id',
suffixes=('_l', '_r'))`: for each variant row in order, emit one merged row
per gene row whose `transcript_id` equals the variant's `transcript` (in gene
order), or a single right-null row when no gene row matches. -/
def mergeLeft (vdf : List VariantRow) (gdf : List GeneRow) : List JoinedRow :=
  vdf.flatMap fun v =>
    let gmatches := gdf.filter fun g => g.transcript_id == v.transcript
    if gmatches.isEmpty then [mergeRowUnmatched v]
    else gmatches.map (mergeRow v)

/-- `df.rename(columns={'effect': 'variant_effect', 'biotype': 'gene_biotype',
'chromosome_l': 'chromosome'})`. -/
def renameColumns (j : JoinedRow) : RenamedRow :=
  { chromosome := j.chromosome_l
    rsid := j.rsid
    start := j.start
    end_ := j.end_
    observed := j.observed
    maf := j.maf
    variant_effect := j.effect
    transcript := j.transcript
    chromosome_r := j.chromosome_r
    transcript_id := j.transcript_id
    gene_id := j.gene_id
    gene_name := j.gene_name
    gene_biotype := j.biotype }

/-- The deduplication key `subset=['rsid', 'variant_effect', 'gene_id']` on
the renamed merge result. -/
def renKey (r : RenamedRow) : Option String × Option String × Option String :=
  (r.rsid, r.variant_effect, r.gene_id)

/-- The same key triple read off an already-projected annotated row. -/
def annKey (r : AnnotatedRow) : Option String × Option String × Option String :=
  (r.rsid, r.variant_effect, r.gene_id)

/-- `df.drop_duplicates(subset=['rsid', 'variant_effect', 'gene_id'],
keep='first')`, the deduplication step of `annotate_variants`. -/
def drop_duplicates_annotated (df : List RenamedRow) : List RenamedRow :=
  dedupFirst renKey df

/-- The final column projection of `annotate_variants`:
`df[['chromosome', 'rsid', 'variant_effect', 'transcript', 'gene_id',
'gene_name', 'gene_biotype']]`. -/
def selectAnnotatedColumns (r : RenamedRow) : AnnotatedRow :=
  { chromosome := r.chromosome
    rsid := r.rsid
    variant_effect := r.variant_effect
    transcript := r.transcript
    gene_id := r.gene_id
    gene_name := r.gene_name
    gene_biotype := r.gene_biotype }

/-- `annotate_variants(vdf, gdf)`: left-merge the variant table with the gene
table on `transcript == transcript_id`, rename the columns, drop duplicate
`(rsid, variant_effect, gene_id)` rows keeping the first, and project the
seven output columns. -/
def annotate_variants (vdf : List VariantRow) (gdf : List GeneRow) :
    List AnnotatedRow :=
  (drop_duplicates_annotated ((mergeLeft vdf gdf).map renameColumns)).map
    selectAnnotatedColumns

/-! ## Partition predicates and filters

The elementwise conditions appearing in `isolate_intergenic_variants`,
`isolate_annotated_variants` and `collect_annotation_stats`.  On a null cell
pandas' `== 'intergenic'` is false and `!= 'intergenic'` is true, so the two
are exact complements, as here. -/

/-- `df.variant_effect == 'intergenic'` for one row. -/
def is_intergenic (r : AnnotatedRow) : Bool :=
  r.variant_effect == some "intergenic"

/-- `df.variant_effect != 'intergenic'` for one row. -/
def is_not_intergenic (r : AnnotatedRow) : Bool :=
  !(r.variant_effect == some "intergenic")

/-- `df.gene_id.notnull()` for one row. -/
def is_mapped (r : AnnotatedRow) : Bool :=
  r.gene_id.isSome

/-- `df.gene_id.isnull()` for one row. -/
def is_not_mapped (r : AnnotatedRow) : Bool :=
  r.gene_id.isNone

/-- `isolate_intergenic_variants(df)`:
`df[df.variant_effect == 'intergenic'].loc[:, ['chromosome', 'rsid',
'variant_effect']]`. -/
def isolate_intergenic_variants (df : List AnnotatedRow) : List IntergenicRow :=
  (df.filter fun r => r.variant_effect == some "intergenic").map fun r =>
    { chromosome := r.chromosome
      rsid := r.rsid
      variant_effect := r.variant_effect }

/-- `isolate_annotated_variants(df)`:
`df[(df.variant_effect != 'intergenic') & (df.gene_id.notnull())]` projected
to `['chromosome', 'rsid', 'variant_effect', 'gene_id', 'gene_name',
'gene_biotype']`. -/
def isolate_annotated_variants (df : List AnnotatedRow) : List MappedRow :=
  (df.filter fun r =>
      !(r.variant_effect == some "intergenic") && r.gene_id.isSome).map fun r =>
    { chromosome := r.chromosome
      rsid := r.rsid
      variant_effect := r.variant_effect
      gene_id := r.gene_id
      gene_name := r.gene_name
      gene_biotype := r.gene_biotype }

/-- The failed-mapping subset: rows matching
`is_not_intergenic & is_not_mapped`, the third condition pair of
`collect_annotation_stats`.  No isolate function materialises it; the spec
calls it `failed_mapping`. -/
def failed_mapping (df : List AnnotatedRow) : List AnnotatedRow :=
  df.filter fun r => is_not_intergenic r && is_not_mapped r

/-! ## Per-chromosome statistics (`collect_annotation_stats`)

`df[cond].groupby('chromosome').count().loc[:, 'rsid']` produces, for each
distinct non-null chromosome of the filtered frame (sorted), the number of
rows in that group whose `rsid` is non-null.  The three resulting series are
concatenated on the sorted union of their indices, missing entries filled
with 0 and cast to integers. -/

/-- Insert a chromosome key into a sorted list of distinct keys, keeping it
sorted and duplicate-free. -/
def insertChrom (c : String) : List String → List String
  | [] => [c]
  | x :: xs =>
    if c = x then x :: xs
    else if c < x then c :: x :: xs
    else x :: insertChrom c xs

/-- The sorted list of distinct values of a list of keys: the index produced
by a pandas `groupby` over those keys. -/
def sortedUnique : List String → List String
  | [] => []
  | x :: xs => insertChrom x (sortedUnique xs)

/-- The group keys of `rows.groupby('chromosome')`: distinct non-null
chromosomes, sorted (null group keys are dropped). -/
def groupbyChromosomes (rows : List AnnotatedRow) : List String :=
  sortedUnique (rows.filterMap fun r => r.chromosome)

/-- `rows.groupby('chromosome').count().loc[:, 'rsid']` as an association
list from chromosome to count of non-null `rsid` cells in the group. -/
def groupbyCountRsid (rows : List AnnotatedRow) : List (String × Nat) :=
  (groupbyChromosomes rows).map fun c =>
    (c, (rows.filter fun r => r.chromosome == some c && r.rsid.isSome).length)

/-- Index lookup into one of the three count series after
`pd.concat(..., axis=1, sort=True).fillna(0).astype(np.int64)`: a chromosome
absent from the series gets count 0. -/
def lookupCount (tbl : List (String × Nat)) (c : String) : Nat :=
  match tbl.find? fun p => p.1 == c with
  | some p => p.2
  | none => 0

/-- `collect_annotation_stats(df)`: count, per chromosome, the intragenic
mapped rows, the intragenic unmapped rows and the intergenic rows (each as
the non-null `rsid` count of the corresponding group), align the three
series on the sorted union of their chromosomes, fill missing combinations
with 0 and store the counts as integers. -/
def collect_annotation_stats (df : List AnnotatedRow) : List StatsRow :=
  let intra_mapped :=
    groupbyCountRsid (df.filter fun r => is_not_intergenic r && is_mapped r)
  let intra_failed :=
    groupbyCountRsid (df.filter fun r => is_not_intergenic r && is_not_mapped r)
  let intergenic :=
    groupbyCountRsid (df.filter fun r => is_intergenic r)
  let chroms := sortedUnique
    (intra_mapped.map Prod.fst ++ intra_failed.map Prod.fst ++
      intergenic.map Prod.fst)
  chroms.map fun c =>
    { chromosome := c
      intra_mapped := lookupCount intra_mapped c
      intra_failed := lookupCount intra_failed c
      intergenic := lookupCount intergenic c }

/-! ## Transcript-column dtype of the two readers

`read_processed_variants` calls `ddf.read_csv(fp, sep='\t', comment='#',
dtype={'transcript': 'object'})`: the transcript column is forced to text.
`read_processed_genes` calls `ddf.read_csv(fp, sep='\t', comment='#')` with
no dtype argument, so every column's dtype is inferred.  The embedding
models one raw column of field strings and the parser's inference rule: a
field is numeric when it is a default missing-value token, a signed
infinity, or an optionally signed decimal literal (integer, or float with a
fraction part and/or an exponent).  A column whose every field is an
integer literal becomes an int64 column; a column whose every field is
numeric (with at least one non-integer form) becomes a float64 column; any
other column is kept as text.  Either conversion replaces the field's text
(leading zeroes, `+` signs, exponent notation, ... are lost).  Converted
float values are represented as exact rationals: only the replacement of
the text form matters here, not IEEE rounding. -/

/-- A parsed cell of a CSV column: opaque text, or a cell of an inferred
int64 column, or a cell of an inferred float64 column (a finite value
modelled as an exact rational, a signed infinity, or a missing value). -/
inductive ColumnValue
  | text (s : String)
  | int (n : Int)
  | float (q : ℚ)
  | inf (neg : Bool)
  | na
deriving Repr, DecidableEq

/-- One numeric field as the `read_csv` parser classifies it: an integer
literal, a finite float literal (exact rational value), a signed infinity,
or a missing-value token. -/
inductive NumField
  | int (n : Int)
  | float (q : ℚ)
  | inf (neg : Bool)
  | na
deriving Repr, DecidableEq

/-- The default missing-value tokens `read_csv` recognises: a field equal
to one of these is NaN, which keeps a column numeric (float64). -/
def naTokens : List String :=
  ["", "#N/A", "#N/A N/A", "#NA", "-1.#IND", "-1.#QNAN", "-NaN", "-nan",
   "1.#IND", "1.#QNAN", "<NA>", "N/A", "NA", "NULL", "NaN", "None", "n/a",
   "nan", "null"]

/-- The value of a run of decimal digit characters. -/
def digitsVal (cs : List Char) : Nat :=
  cs.foldl (fun acc c => acc * 10 + (c.toNat - 48)) 0

/-- Strip one optional leading sign; returns whether it was a minus and the
remaining characters. -/
def parseSign : List Char → Bool × List Char
  | '-' :: cs => (true, cs)
  | '+' :: cs => (false, cs)
  | cs => (false, cs)

/-- Apply a parsed sign to a digit-run value. -/
def signedInt (neg : Bool) (n : Nat) : Int :=
  if neg then -(n : Int) else (n : Int)

/-- The exact value of a signed decimal literal with integer part `ip`,
fraction part `fp` and decimal exponent `e`. -/
def mkFloatVal (neg : Bool) (ip fp : List Char) (e : Int) : ℚ :=
  let m : ℚ := ((digitsVal ip * 10 ^ fp.length + digitsVal fp : Nat) : ℚ)
  let mag : ℚ := m / (10 : ℚ) ^ fp.length * (10 : ℚ) ^ e
  if neg then -mag else mag

/-- Parse the exponent tail of a float literal (after the `e`/`E`): an
optionally signed non-empty digit run ending the field. -/
def parseExponent (neg : Bool) (ip fp : List Char) (cs : List Char) :
    Option NumField :=
  let (eneg, cs2) := parseSign cs
  let ed := cs2.takeWhile fun c => c.isDigit
  let rest := cs2.dropWhile fun c => c.isDigit
  if ed.isEmpty || !rest.isEmpty then none
  else some (NumField.float (mkFloatVal neg ip fp (signedInt eneg (digitsVal ed))))

/-- Parse a decimal literal after the optional sign: a digit run alone is an
integer; a fraction part (with digits on at least one side of the point)
and/or an exponent makes it a float; anything else is not numeric. -/
def parseDecimal (neg : Bool) (cs : List Char) : Option NumField :=
  let ip := cs.takeWhile fun c => c.isDigit
  let r1 := cs.dropWhile fun c => c.isDigit
  match r1 with
  | [] => if ip.isEmpty then none else some (NumField.int (signedInt neg (digitsVal ip)))
  | '.' :: r2 =>
    let fp := r2.takeWhile fun c => c.isDigit
    let r3 := r2.dropWhile fun c => c.isDigit
    if ip.isEmpty && fp.isEmpty then none
    else
      match r3 with
      | [] => some (NumField.float (mkFloatVal neg ip fp 0))
      | 'e' :: r4 => parseExponent neg ip fp r4
      | 'E' :: r4 => parseExponent neg ip fp r4
      | _ => none
  | 'e' :: r2 => if ip.isEmpty then none else parseExponent neg ip [] r2
  | 'E' :: r2 => if ip.isEmpty then none else parseExponent neg ip [] r2
  | _ => none

/-- Case-insensitive infinity tokens accepted by the parser. -/
def isInfToken (cs : List Char) : Bool :=
  cs.map Char.toLower == "inf".data || cs.map Char.toLower == "infinity".data

/-- The numeric parse `read_csv` applies to one field when inferring a
column dtype: a missing-value token, or an optional sign followed by an
infinity token or a decimal literal. -/
def parseNumericField (s : String) : Option NumField :=
  if s ∈ naTokens then some NumField.na
  else
    let (neg, cs) := parseSign s.data
    if isInfToken cs then some (NumField.inf neg)
    else parseDecimal neg cs

/-- Dtype inference for one raw column, as `read_csv` performs it without a
`dtype` argument: all fields integer literals gives an int64 column; all
fields numeric (some of them floats, infinities or missing) gives a float64
column with integer fields widened; any non-numeric field keeps the whole
column as text. -/
def inferColumn (raw : List String) : List ColumnValue :=
  if raw.all fun s =>
      match parseNumericField s with
      | some (NumField.int _) => true
      | _ => false then
    raw.map fun s =>
      match parseNumericField s with
      | some (NumField.int n) => ColumnValue.int n
      | _ => ColumnValue.text s
  else if raw.all fun s => (parseNumericField s).isSome then
    raw.map fun s =>
      match parseNumericField s with
      | some (NumField.int n) => ColumnValue.float ((n : ℚ))
      | some (NumField.float q) => ColumnValue.float q
      | some (NumField.inf b) => ColumnValue.inf b
      | some NumField.na => ColumnValue.na
      | none => ColumnValue.text s
  else
    raw.map ColumnValue.text

/-- The transcript column as read by `read_processed_variants`: the
`dtype={'transcript': 'object'}` argument forces every field to text. -/
def read_processed_variants_transcript (raw : List String) : List ColumnValue :=
  raw.map ColumnValue.text

/-- The transcript_id column as read by `read_processed_genes`: no `dtype`
argument is passed, so the column dtype is inferred. -/
def read_processed_genes_transcript (raw : List String) : List ColumnValue :=
  inferColumn raw

/-! ## The build-A driver loop (`run_hg38_annotations`) -/

/-- Modelled from the spec: `globe._var_human_chromosomes`, the fixed ordered
list of human chromosome names the build-A driver iterates over, is defined
in the `globe` module, which is not among the source files; the spec
describes it as the fixed ordered chromosome list of the hg38 build
(autosomes 1–22 followed by X, Y, MT). -/
def _var_human_chromosomes : List String :=
  ["1", "2", "3", "4", "5", "6", "7", "8", "9", "10", "11", "12", "13",
   "14", "15", "16", "17", "18", "19", "20", "21", "22", "X", "Y", "MT"]

/-- The chromosome iteration of `run_hg38_annotations`: process each
chromosome of the list in order, and `break` at the end of the iteration
whose chromosome equals `'3'` (`if chrom == '3': break`). -/
def hg38ChromosomeLoop : List String → List String
  | [] => []
  | chrom :: rest =>
    if chrom = "3" then [chrom] else chrom :: hg38ChromosomeLoop rest

/-- `run_hg38_annotations`, modelled at the orchestration level: for each
processed chromosome it consolidates one annotated and one intergenic output
file (paths `annotated-chromosome-{chrom}.tsv` and
`intergenic-chromosome-{chrom}.tsv`), and returns the dictionary
`{'annotated': ..., 'intergenic': ...}` — the statistics computation and the
`'stats'` key are commented out in the source. -/
def run_hg38_annotations (annotated_dir intergenic_dir : String) :
    List (String × List String) :=
  let chroms := hg38ChromosomeLoop _var_human_chromosomes
  [("annotated",
    chroms.map fun c => annotated_dir ++ "/annotated-chromosome-" ++ c ++ ".tsv"),
   ("intergenic",
    chroms.map fun c => intergenic_dir ++ "/intergenic-chromosome-" ++ c ++ ".tsv")]

/-! ## The spec-side description of the annotation join

For the refinement claim about `annotate_variants`, a second definition
written from the spec's words (§4.1): a left outer join with the variant
rows as the left side, keyed on `variant.transcript == gene.transcript_id`,
carrying the variant side's chromosome and exactly the seven annotated
columns. -/

/-- The spec's annotated record for one (variant, gene) match. -/
def specAnnotatedRow (v : VariantRow) (g : GeneRow) : AnnotatedRow :=
  { chromosome := v.chromosome
    rsid := v.rsid
    variant_effect := v.effect
    transcript := v.transcript
    gene_id := g.gene_id
    gene_name := g.gene_name
    gene_biotype := g.biotype }

/-- The spec's annotated record for a variant with no matching gene. -/
def specUnmatchedRow (v : VariantRow) : AnnotatedRow :=
  { chromosome := v.chromosome
    rsid := v.rsid
    variant_effect := v.effect
    transcript := v.transcript
    gene_id := none
    gene_name := none
    gene_biotype := none }

/-- The spec's left outer join (§4.1), before deduplication: every variant
row appears, matched against each gene row with equal transcript identifier,
the chromosome taken from the variant side, projected to the seven annotated
columns. -/
def annotatedJoinSpec (vdf : List VariantRow) (gdf : List GeneRow) :
    List AnnotatedRow :=
  vdf.flatMap fun v =>
    let gmatches := gdf.filter fun g => g.transcript_id == v.transcript
    if gmatches.isEmpty then [specUnmatchedRow v]
    else gmatches.map (specAnnotatedRow v)

/-! ## Lemmas about keep-first deduplication -/

theorem mem_of_mem_dedupFirstAux {α κ : Type} [DecidableEq κ] {key : α → κ}
    {seen : List κ} {l : List α} {r : α}
    (h : r ∈ dedupFirstAux key seen l) : r ∈ l := by
  induction l generalizing seen with
  | nil => simp [dedupFirstAux] at h
  | cons x xs ih =>
    simp only [dedupFirstAux] at h
    by_cases hx : key x ∈ seen
    · rw [if_pos hx] at h
      exact List.mem_cons_of_mem _ (ih h)
    · rw [if_neg hx] at h
      rcases List.mem_cons.mp h with h | h
      · exact h ▸ List.mem_cons_self _ _
      · exact List.mem_cons_of_mem _ (ih h)

theorem key_not_seen_of_mem_dedupFirstAux {α κ : Type} [DecidableEq κ]
    {key : α → κ} {seen : List κ} {l : List α} {r : α}
    (h : r ∈ dedupFirstAux key seen l) : key r ∉ seen := by
  induction l generalizing seen with
  | nil => simp [dedupFirstAux] at h
  | cons x xs ih =>
    simp only [dedupFirstAux] at h
    by_cases hx : key x ∈ seen
    · rw [if_pos hx] at h
      exact ih h
    · rw [if_neg hx] at h
      rcases List.mem_cons.mp h with h | h
      · exact h ▸ hx
      · exact fun hs => ih h (List.mem_cons_of_mem _ hs)

theorem nodup_keys_dedupFirstAux {α κ : Type} [DecidableEq κ] (key : α → κ)
    (seen : List κ) (l : List α) :
    ((dedupFirstAux key seen l).map key).Nodup := by
  induction l generalizing seen with
  | nil => simp [dedupFirstAux]
  | cons x xs ih =>
    simp only [dedupFirstAux]
    by_cases hx : key x ∈ seen
    · rw [if_pos hx]
      exact ih seen
    · rw [if_neg hx]
      refine List.nodup_cons.mpr ⟨?_, ih (key x :: seen)⟩
      intro hmem
      rcases List.mem_map.mp hmem with ⟨r, hr, hkr⟩
      exact key_not_seen_of_mem_dedupFirstAux hr (hkr ▸ List.mem_cons_self _ _)

theorem find?_of_mem_dedupFirstAux {α κ : Type} [DecidableEq κ] {key : α → κ}
    {seen : List κ} {l : List α} {r : α}
    (h : r ∈ dedupFirstAux key seen l) :
    l.find? (fun y => decide (key y = key r)) = some r := by
  induction l generalizing seen with
  | nil => simp [dedupFirstAux] at h
  | cons x xs ih =>
    simp only [dedupFirstAux] at h
    by_cases hx : key x ∈ seen
    · rw [if_pos hx] at h
      have hne : key x ≠ key r :=
        fun he => key_not_seen_of_mem_dedupFirstAux h (he ▸ hx)
      rw [List.find?_cons_of_neg _ (by simpa using hne)]
      exact ih h
    · rw [if_neg hx] at h
      rcases List.mem_cons.mp h with h | h
      · subst h
        exact List.find?_cons_of_pos _ (by simp)
      · have hne : key x ≠ key r := fun he =>
          key_not_seen_of_mem_dedupFirstAux h (he ▸ List.mem_cons_self _ _)
        rw [List.find?_cons_of_neg _ (by simpa using hne)]
        exact ih h

theorem dedupFirstAux_eq_self {α κ : Type} [DecidableEq κ] {key : α → κ} :
    ∀ {seen : List κ} {l : List α}, (∀ r ∈ l, key r ∉ seen) →
      (l.map key).Nodup → dedupFirstAux key seen l = l := by
  intro seen l
  induction l generalizing seen with
  | nil => intro _ _; rfl
  | cons x xs ih =>
    intro h1 h2
    simp only [dedupFirstAux]
    rw [if_neg (h1 x (List.mem_cons_self _ _))]
    have hx : key x ∉ xs.map key := (List.nodup_cons.mp (by simpa using h2)).1
    refine congrArg (x :: ·) (ih ?_ (List.nodup_cons.mp (by simpa using h2)).2)
    intro r hr
    intro hmem
    rcases List.mem_cons.mp hmem with he | hseen
    · exact hx (he ▸ List.mem_map_of_mem key hr)
    · exact h1 r (List.mem_cons_of_mem _ hr) hseen

theorem dedupFirst_idempotent {α κ : Type} [DecidableEq κ] (key : α → κ)
    (l : List α) : dedupFirst key (dedupFirst key l) = dedupFirst key l :=
  dedupFirstAux_eq_self (fun r _ => List.not_mem_nil (key r))
    (nodup_keys_dedupFirstAux key [] l)

theorem map_dedupFirstAux {α β κ : Type} [DecidableEq κ] {key : α → κ}
    {key2 : β → κ} {f : α → β} (hk : ∀ x, key2 (f x) = key x) :
    ∀ (seen : List κ) (l : List α),
      (dedupFirstAux key seen l).map f = dedupFirstAux key2 seen (l.map f) := by
  intro seen l
  induction l generalizing seen with
  | nil => rfl
  | cons x xs ih =>
    simp only [dedupFirstAux, List.map_cons, hk]
    by_cases hx : key x ∈ seen
    · rw [if_pos hx, if_pos hx]
      exact ih seen
    · rw [if_neg hx, if_neg hx]
      exact congrArg (f x :: ·) (ih (key x :: seen))

/-! ## Lemmas about sorted distinct group keys -/

theorem mem_insertChrom {y c : String} {l : List String} :
    y ∈ insertChrom c l ↔ y = c ∨ y ∈ l := by
  induction l with
  | nil => simp [insertChrom]
  | cons x xs ih =>
    simp only [insertChrom]
    by_cases hcx : c = x
    · subst hcx
      rw [if_pos rfl]
      simp only [List.mem_cons]
      constructor
      · intro h; exact Or.inr h
      · rintro (h | h)
        · exact Or.inl h
        · exact h
    · rw [if_neg hcx]
      by_cases hlt : c < x
      · rw [if_pos hlt]
        simp [List.mem_cons, or_comm, or_assoc, or_left_comm]
      · rw [if_neg hlt]
        simp only [List.mem_cons, ih]
        constructor
        · rintro (h | h | h)
          · exact Or.inr (Or.inl h)
          · exact Or.inl h
          · exact Or.inr (Or.inr h)
        · rintro (h | h | h)
          · exact Or.inr (Or.inl h)
          · exact Or.inl h
          · exact Or.inr (Or.inr h)

theorem pairwise_insertChrom {c : String} {l : List String}
    (h : l.Pairwise (· < ·)) : (insertChrom c l).Pairwise (· < ·) := by
  induction l with
  | nil => simp [insertChrom]
  | cons x xs ih =>
    rcases List.pairwise_cons.mp h with ⟨hx, hxs⟩
    simp only [insertChrom]
    by_cases hcx : c = x
    · rw [if_pos hcx]; exact h
    · rw [if_neg hcx]
      by_cases hlt : c < x
      · rw [if_pos hlt]
        refine List.pairwise_cons.mpr ⟨?_, h⟩
        intro y hy
        rcases List.mem_cons.mp hy with he | hmem
        · exact he ▸ hlt
        · exact lt_trans hlt (hx y hmem)
      · rw [if_neg hlt]
        have hxc : x < c := lt_of_le_of_ne (not_lt.mp hlt) (Ne.symm hcx)
        refine List.pairwise_cons.mpr ⟨?_, ih hxs⟩
        intro y hy
        rcases mem_insertChrom.mp hy with he | hmem
        · exact he ▸ hxc
        · exact hx y hmem

theorem pairwise_sortedUnique (l : List String) :
    (sortedUnique l).Pairwise (· < ·) := by
  induction l with
  | nil => simp [sortedUnique]
  | cons x xs ih => exact pairwise_insertChrom ih

theorem nodup_sortedUnique (l : List String) : (sortedUnique l).Nodup :=
  (pairwise_sortedUnique l).imp ne_of_lt

theorem mem_sortedUnique {y : String} {l : List String} :
    y ∈ sortedUnique l ↔ y ∈ l := by
  induction l with
  | nil => simp [sortedUnique]
  | cons x xs ih =>
    simp only [sortedUnique, mem_insertChrom, List.mem_cons, ih]

/-! ## Counting lemmas -/

theorem countP_two_split {α : Type} (p q t : α → Bool) (l : List α)
    (h : ∀ a ∈ l, (if p a then 1 else 0) + (if q a then 1 else 0)
      = (if t a then (1 : Nat) else 0)) :
    l.countP p + l.countP q = l.countP t := by
  induction l with
  | nil => simp
  | cons x xs ih =>
    have hx := h x (List.mem_cons_self _ _)
    have hxs := ih fun a ha => h a (List.mem_cons_of_mem _ ha)
    simp only [List.countP_cons]
    omega

theorem countP_three_split {α : Type} (p q w t : α → Bool) (l : List α)
    (h : ∀ a ∈ l, (if p a then 1 else 0) + (if q a then 1 else 0)
      + (if w a then 1 else 0) = (if t a then (1 : Nat) else 0)) :
    l.countP p + l.countP q + l.countP w = l.countP t := by
  induction l with
  | nil => simp
  | cons x xs ih =>
    have hx := h x (List.mem_cons_self _ _)
    have hxs := ih fun a ha => h a (List.mem_cons_of_mem _ ha)
    simp only [List.countP_cons]
    omega

/-! ## Lemmas about the three row categories -/

theorem stats_pred_total (r : AnnotatedRow) :
    (is_not_intergenic r && is_mapped r) = true
      ∨ (is_not_intergenic r && is_not_mapped r) = true
      ∨ is_intergenic r = true := by
  cases hg : r.gene_id <;>
    cases he : (r.variant_effect == some "intergenic") <;>
      simp [is_intergenic, is_not_intergenic, is_mapped, is_not_mapped, he, hg]

theorem stats_pred_if_sum (r : AnnotatedRow) (b : Bool) :
    (if b && (is_not_intergenic r && is_mapped r) then 1 else 0)
      + (if b && (is_not_intergenic r && is_not_mapped r) then 1 else 0)
      + (if b && is_intergenic r then 1 else 0)
      = (if b then (1 : Nat) else 0) := by
  cases hg : r.gene_id <;>
    cases he : (r.variant_effect == some "intergenic") <;>
      cases b <;>
        simp [is_intergenic, is_not_intergenic, is_mapped, is_not_mapped, he, hg]

/-! ## Lemmas about the statistics aggregation -/

theorem mem_groupbyChromosomes {rows : List AnnotatedRow} {c : String} :
    c ∈ groupbyChromosomes rows ↔ ∃ r ∈ rows, r.chromosome = some c := by
  simp [groupbyChromosomes, mem_sortedUnique, List.mem_filterMap]

theorem find?_map_pair (f : String → Nat) (us : List String) (c : String) :
    ((us.map fun u => (u, f u)).find? fun p => p.1 == c)
      = if c ∈ us then some (c, f c) else none := by
  induction us with
  | nil => simp
  | cons u us ih =>
    simp only [List.map_cons]
    by_cases hu : u = c
    · subst hu
      rw [List.find?_cons_of_pos _ (by simp)]
      simp [List.mem_cons]
    · rw [List.find?_cons_of_neg _ (by simpa using hu)]
      rw [ih]
      have hcu : c ≠ u := Ne.symm hu
      by_cases hc : c ∈ us
      · rw [if_pos hc, if_pos (List.mem_cons_of_mem _ hc)]
      · rw [if_neg hc, if_neg (by simp [List.mem_cons, hcu, hc])]

theorem lookupCount_groupbyCountRsid (rows : List AnnotatedRow) (c : String) :
    lookupCount (groupbyCountRsid rows) c
      = (rows.filter fun r => r.chromosome == some c && r.rsid.isSome).length := by
  unfold lookupCount groupbyCountRsid
  rw [find?_map_pair]
  by_cases hc : c ∈ groupbyChromosomes rows
  · rw [if_pos hc]
  · rw [if_neg hc]
    symm
    rw [List.length_eq_zero, List.filter_eq_nil_iff]
    intro r hr
    simp only [Bool.and_eq_true, beq_iff_eq]
    rintro ⟨h1, _⟩
    exact hc (mem_groupbyChromosomes.mpr ⟨r, hr, h1⟩)

theorem map_fst_groupbyCountRsid (rows : List AnnotatedRow) :
    (groupbyCountRsid rows).map Prod.fst = groupbyChromosomes rows := by
  rw [groupbyCountRsid, List.map_map]
  exact List.map_id _

/-- The chromosome index of the statistics table: sorted union of the group
keys of the three filtered subsets. -/
def statsChromosomes (df : List AnnotatedRow) : List String :=
  sortedUnique
    (groupbyChromosomes (df.filter fun r => is_not_intergenic r && is_mapped r)
      ++ groupbyChromosomes (df.filter fun r => is_not_intergenic r && is_not_mapped r)
      ++ groupbyChromosomes (df.filter fun r => is_intergenic r))

theorem collect_annotation_stats_eq (df : List AnnotatedRow) :
    collect_annotation_stats df
      = (statsChromosomes df).map fun c =>
          { chromosome := c
            intra_mapped := (df.filter fun r =>
              (r.chromosome == some c && r.rsid.isSome)
                && (is_not_intergenic r && is_mapped r)).length
            intra_failed := (df.filter fun r =>
              (r.chromosome == some c && r.rsid.isSome)
                && (is_not_intergenic r && is_not_mapped r)).length
            intergenic := (df.filter fun r =>
              (r.chromosome == some c && r.rsid.isSome)
                && is_intergenic r).length } := by
  simp only [collect_annotation_stats, statsChromosomes,
    map_fst_groupbyCountRsid, lookupCount_groupbyCountRsid,
    List.filter_filter]

theorem mem_statsChromosomes {df : List AnnotatedRow} {c : String} :
    c ∈ statsChromosomes df ↔ ∃ r ∈ df, r.chromosome = some c := by
  unfold statsChromosomes
  rw [mem_sortedUnique, List.mem_append, List.mem_append]
  simp only [mem_groupbyChromosomes, List.mem_filter]
  constructor
  · rintro ((⟨r, ⟨hr, _⟩, hc⟩ | ⟨r, ⟨hr, _⟩, hc⟩) | ⟨r, ⟨hr, _⟩, hc⟩) <;>
      exact ⟨r, hr, hc⟩
  · rintro ⟨r, hr, hc⟩
    rcases stats_pred_total r with h | h | h
    · exact Or.inl (Or.inl ⟨r, ⟨hr, h⟩, hc⟩)
    · exact Or.inl (Or.inr ⟨r, ⟨hr, h⟩, hc⟩)
    · exact Or.inr ⟨r, ⟨hr, h⟩, hc⟩

/-! ## Lemmas about the partition and the join -/

theorem partition_length (df : List AnnotatedRow) :
    (isolate_intergenic_variants df).length
      + (isolate_annotated_variants df).length
      + (failed_mapping df).length = df.length := by
  have h := countP_three_split
    (fun r => r.variant_effect == some "intergenic")
    (fun r => !(r.variant_effect == some "intergenic") && r.gene_id.isSome)
    (fun r => is_not_intergenic r && is_not_mapped r)
    (fun _ => true) df ?_
  · simpa only [isolate_intergenic_variants, isolate_annotated_variants,
      failed_mapping, List.length_map, ← List.countP_eq_length_filter,
      List.countP_true] using h
  · intro a _
    cases hg : a.gene_id <;>
      cases he : (a.variant_effect == some "intergenic") <;>
        simp [is_not_intergenic, is_not_mapped, he, hg]

theorem pred_exclusive (r : AnnotatedRow) :
    ¬(is_intergenic r = true ∧ (is_not_intergenic r && is_mapped r) = true)
    ∧ ¬(is_intergenic r = true ∧ (is_not_intergenic r && is_not_mapped r) = true)
    ∧ ¬((is_not_intergenic r && is_mapped r) = true
        ∧ (is_not_intergenic r && is_not_mapped r) = true) := by
  cases hg : r.gene_id <;>
    cases he : (r.variant_effect == some "intergenic") <;>
      simp [is_intergenic, is_not_intergenic, is_mapped, is_not_mapped, he, hg]

theorem merge_rename_select (vdf : List VariantRow) (gdf : List GeneRow) :
    (mergeLeft vdf gdf).map (selectAnnotatedColumns ∘ renameColumns)
      = annotatedJoinSpec vdf gdf := by
  induction vdf with
  | nil => rfl
  | cons v vs ih =>
    simp only [mergeLeft, annotatedJoinSpec, List.flatMap_cons,
      List.map_append] at ih ⊢
    rw [ih]
    congr 1
    by_cases hm : (gdf.filter fun g => g.transcript_id == v.transcript).isEmpty
    · rw [if_pos hm, if_pos hm]
      rfl
    · rw [if_neg hm, if_neg hm, List.map_map]
      rfl

/-! ## Example tables used by the witnesses and counterexamples -/

/-- An intergenic variant with no transcript (spec §8, scenario 1). -/
def exVariantIntergenic : VariantRow :=
  { chromosome := some "1", rsid := some "rs1", start := none, end_ := none,
    observed := none, maf := none, effect := some "intergenic",
    transcript := none }

/-- A missense variant on transcript T1 (spec §8, scenario 2). -/
def exVariantMissense : VariantRow :=
  { chromosome := some "1", rsid := some "rs2", start := none, end_ := none,
    observed := none, maf := none, effect := some "missense",
    transcript := some "T1" }

/-- A missense variant on a transcript absent from the gene table
(spec §8, scenario 3). -/
def exVariantUnmatched : VariantRow :=
  { chromosome := some "1", rsid := some "rs3", start := none, end_ := none,
    observed := none, maf := none, effect := some "missense",
    transcript := some "T404" }

/-- A gene row for transcript T1 of gene G1. -/
def exGene : GeneRow :=
  { chromosome := some "1", transcript_id := some "T1", gene_id := some "G1",
    gene_name := some "X", biotype := some "protein_coding" }

/-- A second gene row for transcript T1 sharing gene G1 (spec §8,
scenario 4: join fan-out that the deduplication must collapse). -/
def exGeneDup : GeneRow :=
  { chromosome := some "1", transcript_id := some "T1", gene_id := some "G1",
    gene_name := some "X", biotype := some "protein_coding" }

/-- An annotated intergenic row with a non-null rsid. -/
def exAnnIntergenic : AnnotatedRow :=
  { chromosome := some "1", rsid := some "rs1",
    variant_effect := some "intergenic", transcript := none, gene_id := none,
    gene_name := none, gene_biotype := none }

/-- An annotated intergenic row whose rsid is null: `groupby(...).count()`
does not count it. -/
def exAnnNullRsid : AnnotatedRow :=
  { chromosome := some "1", rsid := none,
    variant_effect := some "intergenic", transcript := none, gene_id := none,
    gene_name := none, gene_biotype := none }

/-- A renamed merge row as it looks for `exVariantMissense` joined with
`exGene`. -/
def exRenamed : RenamedRow :=
  { chromosome := some "1", rsid := some "rs2", start := none, end_ := none,
    observed := none, maf := none, variant_effect := some "missense",
    transcript := some "T1", chromosome_r := some "1",
    transcript_id := some "T1", gene_id := some "G1", gene_name := some "X",
    gene_biotype := some "protein_coding" }

/-! ## Claims -/

/-- C1: for every variant table and gene table, the intergenic subset, the
mapped subset and the failed-mapping subset of the annotated table cover
every row of it and are pairwise disjoint: every row satisfies one of the
three row predicates, the predicates exclude each other, each row lands in
the corresponding materialised subset, and the three subset sizes add up to
the size of the annotated table. -/
theorem annotation_partition (vdf : List VariantRow) (gdf : List GeneRow) :
    (∀ r ∈ annotate_variants vdf gdf,
      is_intergenic r = true ∨ (is_not_intergenic r && is_mapped r) = true
        ∨ (is_not_intergenic r && is_not_mapped r) = true)
    ∧ (∀ r : AnnotatedRow,
        ¬(is_intergenic r = true ∧ (is_not_intergenic r && is_mapped r) = true)
        ∧ ¬(is_intergenic r = true
            ∧ (is_not_intergenic r && is_not_mapped r) = true)
        ∧ ¬((is_not_intergenic r && is_mapped r) = true
            ∧ (is_not_intergenic r && is_not_mapped r) = true))
    ∧ (∀ r ∈ annotate_variants vdf gdf, is_intergenic r = true →
        ({ chromosome := r.chromosome, rsid := r.rsid,
           variant_effect := r.variant_effect } : IntergenicRow)
          ∈ isolate_intergenic_variants (annotate_variants vdf gdf))
    ∧ (∀ r ∈ annotate_variants vdf gdf,
        (is_not_intergenic r && is_mapped r) = true →
        ({ chromosome := r.chromosome, rsid := r.rsid,
           variant_effect := r.variant_effect, gene_id := r.gene_id,
           gene_name := r.gene_name, gene_biotype := r.gene_biotype } : MappedRow)
          ∈ isolate_annotated_variants (annotate_variants vdf gdf))
    ∧ (∀ r ∈ annotate_variants vdf gdf,
        (is_not_intergenic r && is_not_mapped r) = true →
          r ∈ failed_mapping (annotate_variants vdf gdf))
    ∧ (isolate_intergenic_variants (annotate_variants vdf gdf)).length
        + (isolate_annotated_variants (annotate_variants vdf gdf)).length
        + (failed_mapping (annotate_variants vdf gdf)).length
        = (annotate_variants vdf gdf).length := by
  refine ⟨?_, fun r => pred_exclusive r, ?_, ?_, ?_, partition_length _⟩
  · intro r _
    rcases stats_pred_total r with h | h | h
    · exact Or.inr (Or.inl h)
    · exact Or.inr (Or.inr h)
    · exact Or.inl h
  · intro r hr hi
    exact List.mem_map_of_mem _ (List.mem_filter.mpr ⟨hr, hi⟩)
  · intro r hr hm
    exact List.mem_map_of_mem _ (List.mem_filter.mpr ⟨hr, hm⟩)
  · intro r hr hf
    exact List.mem_filter.mpr ⟨hr, hf⟩

/-- C1 witness: the partition property evaluated on the three scenario
variants joined against the one-gene table. -/
theorem annotation_partition_witness :
    (∀ r ∈ annotate_variants
        [exVariantIntergenic, exVariantMissense, exVariantUnmatched] [exGene],
      is_intergenic r = true ∨ (is_not_intergenic r && is_mapped r) = true
        ∨ (is_not_intergenic r && is_not_mapped r) = true)
    ∧ (∀ r : AnnotatedRow,
        ¬(is_intergenic r = true ∧ (is_not_intergenic r && is_mapped r) = true)
        ∧ ¬(is_intergenic r = true
            ∧ (is_not_intergenic r && is_not_mapped r) = true)
        ∧ ¬((is_not_intergenic r && is_mapped r) = true
            ∧ (is_not_intergenic r && is_not_mapped r) = true))
    ∧ (∀ r ∈ annotate_variants
        [exVariantIntergenic, exVariantMissense, exVariantUnmatched] [exGene],
        is_intergenic r = true →
        ({ chromosome := r.chromosome, rsid := r.rsid,
           variant_effect := r.variant_effect } : IntergenicRow)
          ∈ isolate_intergenic_variants (annotate_variants
            [exVariantIntergenic, exVariantMissense, exVariantUnmatched] [exGene]))
    ∧ (∀ r ∈ annotate_variants
        [exVariantIntergenic, exVariantMissense, exVariantUnmatched] [exGene],
        (is_not_intergenic r && is_mapped r) = true →
        ({ chromosome := r.chromosome, rsid := r.rsid,
           variant_effect := r.variant_effect, gene_id := r.gene_id,
           gene_name := r.gene_name, gene_biotype := r.gene_biotype } : MappedRow)
          ∈ isolate_annotated_variants (annotate_variants
            [exVariantIntergenic, exVariantMissense, exVariantUnmatched] [exGene]))
    ∧ (∀ r ∈ annotate_variants
        [exVariantIntergenic, exVariantMissense, exVariantUnmatched] [exGene],
        (is_not_intergenic r && is_not_mapped r) = true →
          r ∈ failed_mapping (annotate_variants
            [exVariantIntergenic, exVariantMissense, exVariantUnmatched] [exGene]))
    ∧ (isolate_intergenic_variants (annotate_variants
          [exVariantIntergenic, exVariantMissense, exVariantUnmatched] [exGene])).length
        + (isolate_annotated_variants (annotate_variants
          [exVariantIntergenic, exVariantMissense, exVariantUnmatched] [exGene])).length
        + (failed_mapping (annotate_variants
          [exVariantIntergenic, exVariantMissense, exVariantUnmatched] [exGene])).length
        = (annotate_variants
          [exVariantIntergenic, exVariantMissense, exVariantUnmatched] [exGene]).length :=
  annotation_partition
    [exVariantIntergenic, exVariantMissense, exVariantUnmatched] [exGene]

/-- C2: the annotated table holds at most one row for each
`(rsid, variant_effect, gene_id)` triple, and every retained row is the
first-seen occurrence of its triple in the pre-deduplication (renamed)
join result. -/
theorem annotate_dedup_unique_first (vdf : List VariantRow)
    (gdf : List GeneRow) :
    ((annotate_variants vdf gdf).map annKey).Nodup
    ∧ ∀ r ∈ annotate_variants vdf gdf,
        ∃ x, ((mergeLeft vdf gdf).map renameColumns).find?
            (fun y => decide (renKey y = annKey r)) = some x
          ∧ selectAnnotatedColumns x = r := by
  constructor
  · show (((dedupFirst renKey ((mergeLeft vdf gdf).map renameColumns)).map
      selectAnnotatedColumns).map annKey).Nodup
    rw [List.map_map]
    exact nodup_keys_dedupFirstAux renKey [] _
  · intro r hr
    rcases List.mem_map.mp hr with ⟨x, hx, hsel⟩
    subst hsel
    exact ⟨x, find?_of_mem_dedupFirstAux hx, rfl⟩

/-- C2 witness: scenario 4 of the spec — one variant matching two gene rows
that share a gene id — evaluated concretely; the gate property is applied to
that table pair. -/
theorem annotate_dedup_unique_first_witness :
    ((annotate_variants [exVariantMissense] [exGene, exGeneDup]).map annKey).Nodup
    ∧ ∀ r ∈ annotate_variants [exVariantMissense] [exGene, exGeneDup],
        ∃ x, ((mergeLeft [exVariantMissense] [exGene, exGeneDup]).map
            renameColumns).find? (fun y => decide (renKey y = annKey r)) = some x
          ∧ selectAnnotatedColumns x = r :=
  annotate_dedup_unique_first [exVariantMissense] [exGene, exGeneDup]

/-- C3: `annotate_variants` computes a left outer join with the variant rows
on the left, keyed on `transcript == transcript_id`, keeps the variant
side's chromosome, and projects exactly the seven annotated columns: it
equals the keep-first deduplication of the spec's seven-column left outer
join, and every variant row of the left table appears in that join. -/
theorem annotate_variants_left_join_spec (vdf : List VariantRow)
    (gdf : List GeneRow) :
    annotate_variants vdf gdf = dedupFirst annKey (annotatedJoinSpec vdf gdf)
    ∧ ∀ v ∈ vdf, ∃ r ∈ annotatedJoinSpec vdf gdf,
        r.chromosome = v.chromosome ∧ r.rsid = v.rsid
          ∧ r.variant_effect = v.effect ∧ r.transcript = v.transcript := by
  constructor
  · show ((dedupFirstAux renKey [] ((mergeLeft vdf gdf).map renameColumns)).map
      selectAnnotatedColumns) = dedupFirst annKey (annotatedJoinSpec vdf gdf)
    have hmap := @map_dedupFirstAux RenamedRow AnnotatedRow
      (Option String × Option String × Option String) _ renKey annKey
      selectAnnotatedColumns (fun x => rfl) []
      ((mergeLeft vdf gdf).map renameColumns)
    rw [hmap, List.map_map, merge_rename_select]
    rfl
  · intro v hv
    by_cases hm : (gdf.filter fun g => g.transcript_id == v.transcript).isEmpty
    · refine ⟨specUnmatchedRow v, ?_, rfl, rfl, rfl, rfl⟩
      refine List.mem_flatMap.mpr ⟨v, hv, ?_⟩
      rw [if_pos hm]
      exact List.mem_cons_self _ _
    · have hne := fun he =>
        hm (List.isEmpty_iff.mpr he)
      rcases List.exists_mem_of_ne_nil _ hne with ⟨g, hg⟩
      refine ⟨specAnnotatedRow v g, ?_, rfl, rfl, rfl, rfl⟩
      refine List.mem_flatMap.mpr ⟨v, hv, ?_⟩
      rw [if_neg hm]
      exact List.mem_map_of_mem _ hg

/-- C3 witness: the join shape evaluated on the three scenario variants and
the one-gene table. -/
theorem annotate_variants_left_join_spec_witness :
    annotate_variants
        [exVariantIntergenic, exVariantMissense, exVariantUnmatched] [exGene]
      = dedupFirst annKey (annotatedJoinSpec
          [exVariantIntergenic, exVariantMissense, exVariantUnmatched] [exGene])
    ∧ ∀ v ∈ [exVariantIntergenic, exVariantMissense, exVariantUnmatched],
        ∃ r ∈ annotatedJoinSpec
            [exVariantIntergenic, exVariantMissense, exVariantUnmatched] [exGene],
          r.chromosome = v.chromosome ∧ r.rsid = v.rsid
            ∧ r.variant_effect = v.effect ∧ r.transcript = v.transcript :=
  annotate_variants_left_join_spec
    [exVariantIntergenic, exVariantMissense, exVariantUnmatched] [exGene]

/-- C8: the deduplication step on the key `(rsid, variant_effect, gene_id)`
with keep-first is idempotent: a second application leaves the table
unchanged. -/
theorem dedup_step_idempotent (df : List RenamedRow) :
    drop_duplicates_annotated (drop_duplicates_annotated df)
      = drop_duplicates_annotated df :=
  dedupFirst_idempotent renKey df

/-- C8 witness: idempotence evaluated on a concrete two-row table whose rows
share the deduplication key. -/
theorem dedup_step_idempotent_witness :
    drop_duplicates_annotated (drop_duplicates_annotated [exRenamed, exRenamed])
      = drop_duplicates_annotated [exRenamed, exRenamed] :=
  dedup_step_idempotent [exRenamed, exRenamed]

/-- C4 counterexample: on a one-row annotated table whose single row lies on
chromosome "1" but has a null rsid, the statistics table has no row for
chromosome "1" whose three counts sum to the chromosome's total row count
(the only stats row carries counts 0/0/0 against 1 table row). -/
theorem stats_sum_counterexample :
    (∃ r ∈ [exAnnNullRsid], r.chromosome = some "1")
    ∧ ¬∃ s ∈ collect_annotation_stats [exAnnNullRsid], s.chromosome = "1"
        ∧ s.intra_mapped + s.intra_failed + s.intergenic
          = (List.filter (fun r => r.chromosome == some "1")
              [exAnnNullRsid]).length := by
  decide

/-- C4 (amended): for every annotated table and chromosome present in it,
the statistics table has a row for that chromosome whose three counts sum to
the number of rows of the annotated table on that chromosome that have a
non-null rsid (hence to the chromosome's total row count whenever every
rsid on that chromosome is non-null). -/
theorem stats_sum_amended (df : List AnnotatedRow) (c : String)
    (h : ∃ r ∈ df, r.chromosome = some c) :
    ∃ s ∈ collect_annotation_stats df, s.chromosome = c
      ∧ s.intra_mapped + s.intra_failed + s.intergenic
        = (df.filter fun r => r.chromosome == some c && r.rsid.isSome).length := by
  rw [collect_annotation_stats_eq]
  have hc : c ∈ statsChromosomes df := mem_statsChromosomes.mpr h
  refine ⟨_, List.mem_map_of_mem _ hc, rfl, ?_⟩
  have hsum := countP_three_split
    (fun r => (r.chromosome == some c && r.rsid.isSome)
      && (is_not_intergenic r && is_mapped r))
    (fun r => (r.chromosome == some c && r.rsid.isSome)
      && (is_not_intergenic r && is_not_mapped r))
    (fun r => (r.chromosome == some c && r.rsid.isSome) && is_intergenic r)
    (fun r => r.chromosome == some c && r.rsid.isSome) df
    (fun a _ => stats_pred_if_sum a _)
  simpa only [List.countP_eq_length_filter] using hsum

/-- C4 witness: the amended sum property applied to a one-row table with a
non-null rsid on chromosome "1". -/
theorem stats_sum_amended_witness :
    (∃ r ∈ [exAnnIntergenic], r.chromosome = some "1")
    ∧ ∃ s ∈ collect_annotation_stats [exAnnIntergenic], s.chromosome = "1"
        ∧ s.intra_mapped + s.intra_failed + s.intergenic
          = (List.filter (fun r => r.chromosome == some "1" && r.rsid.isSome)
              [exAnnIntergenic]).length :=
  ⟨by decide, stats_sum_amended [exAnnIntergenic] "1" (by decide)⟩

theorem map_chromosome_stats (df : List AnnotatedRow) :
    (collect_annotation_stats df).map (fun s => s.chromosome)
      = statsChromosomes df := by
  rw [collect_annotation_stats_eq, List.map_map]
  exact List.map_id _

/-- C5: the statistics table has exactly one row per chromosome present in
the annotated table, a category with no rows on a chromosome contributes a
count of 0 there, and every count is an integer (a natural number in this
embedding, matching the `.fillna(0).astype(np.int64)` of the source). -/
theorem stats_one_row_per_chromosome (df : List AnnotatedRow) :
    ((collect_annotation_stats df).map (fun s => s.chromosome)).Nodup
    ∧ (∀ c : String, (∃ s ∈ collect_annotation_stats df, s.chromosome = c)
        ↔ ∃ r ∈ df, r.chromosome = some c)
    ∧ ∀ s ∈ collect_annotation_stats df,
        ((df.filter fun r => (is_not_intergenic r && is_mapped r)
            && r.chromosome == some s.chromosome) = [] → s.intra_mapped = 0)
        ∧ ((df.filter fun r => (is_not_intergenic r && is_not_mapped r)
            && r.chromosome == some s.chromosome) = [] → s.intra_failed = 0)
        ∧ ((df.filter fun r => is_intergenic r
            && r.chromosome == some s.chromosome) = [] → s.intergenic = 0) := by
  refine ⟨?_, ?_, ?_⟩
  · rw [map_chromosome_stats]
    exact nodup_sortedUnique _
  · intro c
    constructor
    · rintro ⟨s, hs, hc⟩
      rw [collect_annotation_stats_eq] at hs
      rcases List.mem_map.mp hs with ⟨u, hu, hsu⟩
      have : u = c := by rw [← hc, ← hsu]
      exact mem_statsChromosomes.mp (this ▸ hu)
    · intro h
      rw [collect_annotation_stats_eq]
      exact ⟨_, List.mem_map_of_mem _ (mem_statsChromosomes.mpr h), rfl⟩
  · intro s hs
    rw [collect_annotation_stats_eq] at hs
    rcases List.mem_map.mp hs with ⟨u, _, hsu⟩
    subst hsu
    refine ⟨?_, ?_, ?_⟩ <;>
      · intro hempty
        rw [List.length_eq_zero, List.filter_eq_nil_iff]
        intro r hr hpred
        have hdf := List.filter_eq_nil_iff.mp hempty r hr
        simp only [Bool.and_eq_true, beq_iff_eq] at hpred hdf
        exact hdf ⟨hpred.2, hpred.1.1⟩

/-- C5 witness: the per-chromosome row shape evaluated on a concrete
two-row table. -/
theorem stats_one_row_per_chromosome_witness :
    ((collect_annotation_stats [exAnnIntergenic, exAnnNullRsid]).map
      (fun s => s.chromosome)).Nodup
    ∧ (∀ c : String, (∃ s ∈ collect_annotation_stats
          [exAnnIntergenic, exAnnNullRsid], s.chromosome = c)
        ↔ ∃ r ∈ [exAnnIntergenic, exAnnNullRsid], r.chromosome = some c)
    ∧ ∀ s ∈ collect_annotation_stats [exAnnIntergenic, exAnnNullRsid],
        (([exAnnIntergenic, exAnnNullRsid].filter fun r =>
            (is_not_intergenic r && is_mapped r)
              && r.chromosome == some s.chromosome) = [] → s.intra_mapped = 0)
        ∧ (([exAnnIntergenic, exAnnNullRsid].filter fun r =>
            (is_not_intergenic r && is_not_mapped r)
              && r.chromosome == some s.chromosome) = [] → s.intra_failed = 0)
        ∧ (([exAnnIntergenic, exAnnNullRsid].filter fun r => is_intergenic r
              && r.chromosome == some s.chromosome) = [] → s.intergenic = 0) :=
  stats_one_row_per_chromosome [exAnnIntergenic, exAnnNullRsid]

/-- C10: each of the three per-chromosome statistics counts exactly the rows
of its category on that chromosome whose rsid is non-null; a null-rsid row
is counted in none of the three, so the three counts plus the chromosome's
null-rsid row count give the chromosome's total row count. -/
theorem stats_counts_nonnull_rsid (df : List AnnotatedRow) :
    ∀ s ∈ collect_annotation_stats df,
      s.intra_mapped = (df.filter fun r =>
          (r.chromosome == some s.chromosome && r.rsid.isSome)
            && (is_not_intergenic r && is_mapped r)).length
      ∧ s.intra_failed = (df.filter fun r =>
          (r.chromosome == some s.chromosome && r.rsid.isSome)
            && (is_not_intergenic r && is_not_mapped r)).length
      ∧ s.intergenic = (df.filter fun r =>
          (r.chromosome == some s.chromosome && r.rsid.isSome)
            && is_intergenic r).length
      ∧ s.intra_mapped + s.intra_failed + s.intergenic
          + (df.filter fun r =>
              r.chromosome == some s.chromosome && r.rsid.isNone).length
          = (df.filter fun r => r.chromosome == some s.chromosome).length := by
  intro s hs
  rw [collect_annotation_stats_eq] at hs
  rcases List.mem_map.mp hs with ⟨u, _, hsu⟩
  subst hsu
  dsimp only
  refine ⟨rfl, rfl, rfl, ?_⟩
  have hsum := countP_three_split
    (fun r => (r.chromosome == some u && r.rsid.isSome)
      && (is_not_intergenic r && is_mapped r))
    (fun r => (r.chromosome == some u && r.rsid.isSome)
      && (is_not_intergenic r && is_not_mapped r))
    (fun r => (r.chromosome == some u && r.rsid.isSome) && is_intergenic r)
    (fun r => r.chromosome == some u && r.rsid.isSome) df
    (fun a _ => stats_pred_if_sum a _)
  have hrsid := countP_two_split
    (fun r => r.chromosome == some u && r.rsid.isSome)
    (fun r => r.chromosome == some u && r.rsid.isNone)
    (fun r => r.chromosome == some u) df ?_
  · simp only [List.countP_eq_length_filter] at hsum hrsid
    omega
  · intro a _
    cases hb : (a.chromosome == some u) <;> cases hr : a.rsid <;>
      simp [hb, hr]

/-- C10 witness: the count characterisation applied to the stats row of a
concrete table holding one counted and one null-rsid row. -/
theorem stats_counts_nonnull_rsid_witness :
    ({ chromosome := "1", intra_mapped := 0, intra_failed := 0,
        intergenic := 1 } : StatsRow)
        ∈ collect_annotation_stats [exAnnIntergenic, exAnnNullRsid]
    ∧ ((0 : Nat) = ([exAnnIntergenic, exAnnNullRsid].filter fun r =>
          (r.chromosome == some "1" && r.rsid.isSome)
            && (is_not_intergenic r && is_mapped r)).length
      ∧ (0 : Nat) = ([exAnnIntergenic, exAnnNullRsid].filter fun r =>
          (r.chromosome == some "1" && r.rsid.isSome)
            && (is_not_intergenic r && is_not_mapped r)).length
      ∧ (1 : Nat) = ([exAnnIntergenic, exAnnNullRsid].filter fun r =>
          (r.chromosome == some "1" && r.rsid.isSome)
            && is_intergenic r).length
      ∧ (0 : Nat) + 0 + 1
          + ([exAnnIntergenic, exAnnNullRsid].filter fun r =>
              r.chromosome == some "1" && r.rsid.isNone).length
          = ([exAnnIntergenic, exAnnNullRsid].filter fun r =>
              r.chromosome == some "1").length) :=
  ⟨by decide,
   stats_counts_nonnull_rsid [exAnnIntergenic, exAnnNullRsid]
     { chromosome := "1", intra_mapped := 0, intra_failed := 0,
       intergenic := 1 } (by decide)⟩

/-- C6: the build-A driver's loop processes only the first three chromosomes
of the fixed chromosome list — it breaks once the chromosome named "3" has
been processed — instead of processing the full 25-entry list, and the
returned per-chromosome output paths cover exactly those three
chromosomes. -/
theorem run_hg38_annotations_stops_after_third (adir idir : String) :
    hg38ChromosomeLoop _var_human_chromosomes = _var_human_chromosomes.take 3
    ∧ _var_human_chromosomes.take 3 = ["1", "2", "3"]
    ∧ _var_human_chromosomes.length = 25
    ∧ _var_human_chromosomes ≠ ["1", "2", "3"]
    ∧ run_hg38_annotations adir idir
      = [("annotated", ["1", "2", "3"].map fun c =>
            adir ++ "/annotated-chromosome-" ++ c ++ ".tsv"),
         ("intergenic", ["1", "2", "3"].map fun c =>
            idir ++ "/intergenic-chromosome-" ++ c ++ ".tsv")] :=
  ⟨by decide, by decide, by decide, by decide, rfl⟩

/-- C6 witness: the loop shape at concrete directories. -/
theorem run_hg38_annotations_stops_after_third_witness :
    hg38ChromosomeLoop _var_human_chromosomes = _var_human_chromosomes.take 3
    ∧ _var_human_chromosomes.take 3 = ["1", "2", "3"]
    ∧ _var_human_chromosomes.length = 25
    ∧ _var_human_chromosomes ≠ ["1", "2", "3"]
    ∧ run_hg38_annotations "data/annotated" "data/intergenic"
      = [("annotated", ["1", "2", "3"].map fun c =>
            "data/annotated" ++ "/annotated-chromosome-" ++ c ++ ".tsv"),
         ("intergenic", ["1", "2", "3"].map fun c =>
            "data/intergenic" ++ "/intergenic-chromosome-" ++ c ++ ".tsv")] :=
  run_hg38_annotations_stops_after_third "data/annotated" "data/intergenic"

/-- C9: the build-A driver returns a mapping whose keys are exactly
`annotated` and `intergenic` — there is no `stats` key, so no statistics
table or file is produced for build A. -/
theorem run_hg38_annotations_no_stats (adir idir : String) :
    (run_hg38_annotations adir idir).map Prod.fst = ["annotated", "intergenic"]
    ∧ "stats" ∉ (run_hg38_annotations adir idir).map Prod.fst := by
  refine ⟨rfl, ?_⟩
  show "stats" ∉ ["annotated", "intergenic"]
  decide

/-- C9 witness: the returned keys at concrete directories. -/
theorem run_hg38_annotations_no_stats_witness :
    (run_hg38_annotations "data/annotated" "data/intergenic").map Prod.fst
      = ["annotated", "intergenic"]
    ∧ "stats" ∉ (run_hg38_annotations "data/annotated"
        "data/intergenic").map Prod.fst :=
  run_hg38_annotations_no_stats "data/annotated" "data/intergenic"

/-- C7 counterexample: on the numeric-looking raw transcript column
`["007"]`, the variant reader keeps the text "007" but the gene reader,
which passes no dtype, infers an integer column and stores 7 — the
leading zeroes are not preserved on the gene side. -/
theorem transcript_dtype_counterexample :
    read_processed_variants_transcript ["007"] = [ColumnValue.text "007"]
    ∧ read_processed_genes_transcript ["007"] ≠ [ColumnValue.text "007"]
    ∧ read_processed_genes_transcript ["007"] = [ColumnValue.int 7] := by
  decide

/-- C7 (amended): `read_processed_variants` always reads the transcript
column as opaque text (its `dtype={'transcript': 'object'}` forces it),
while `read_processed_genes` passes no dtype, so its transcript_id column
stays text only when at least one field does not parse as a number
(integer, float, infinity or missing-value token); an all-numeric gene
transcript column is parsed numerically. -/
theorem transcript_dtype_amended (raw : List String) :
    read_processed_variants_transcript raw = raw.map ColumnValue.text
    ∧ ((∃ s ∈ raw, parseNumericField s = none) →
        read_processed_genes_transcript raw = raw.map ColumnValue.text) := by
  refine ⟨rfl, ?_⟩
  rintro ⟨s, hs, hnone⟩
  unfold read_processed_genes_transcript inferColumn
  have h1 : ¬(raw.all fun t =>
      match parseNumericField t with
      | some (NumField.int _) => true
      | _ => false) = true := by
    intro hall
    have h := List.all_eq_true.mp hall s hs
    rw [hnone] at h
    exact absurd h (by decide)
  have h2 : ¬(raw.all fun t => (parseNumericField t).isSome) = true := by
    intro hall
    have h := List.all_eq_true.mp hall s hs
    rw [hnone] at h
    exact absurd h (by decide)
  rw [if_neg h1, if_neg h2]

/-- C7 witness: a realistic non-numeric transcript identifier is preserved
as text by both readers. -/
theorem transcript_dtype_amended_witness :
    read_processed_variants_transcript ["ENST0001"]
      = [ColumnValue.text "ENST0001"]
    ∧ read_processed_genes_transcript ["ENST0001"]
      = [ColumnValue.text "ENST0001"] :=
  ⟨(transcript_dtype_amended ["ENST0001"]).1,
   (transcript_dtype_amended ["ENST0001"]).2 ⟨"ENST0001", by decide, by decide⟩⟩

end EggV
